import Mathlib

/-!
Verification development for the latency-metrics component of the
VoiceAgent-Livekit repository.

The embedding below follows the Python sources:
  * `agent-with-metrics.py` — the `TurnMetrics` dataclass, the
    `MetricsCollector` class, the `Assistant` lifecycle callbacks and the
    Excel/CSV export path;
  * `agent.py` — the cross-process metrics writer task
    `run_metrics_writer`.

Machine floats are modelled as exact rationals (`ℚ`); Python dictionaries
keyed by strings are modelled as association lists in insertion order.
Python truthiness on `Optional[float]` fields (`if self.user_speech_end:`)
is modelled by `truthy`, which is false exactly on `None` and `0.0`,
matching the semantics of `not x` for an optional float.
-/

namespace VoiceAgent

/-- Python truthiness of an `Optional[float]` value: `None` and `0.0` are
falsy, every other value is truthy. -/
def truthy : Option ℚ → Bool
  | none => false
  | some x => x != 0

/-- The `TurnMetrics` dataclass of `agent-with-metrics.py`: one record per
conversation turn.  All timestamp fields default to `None` and the two text
fields default to the empty string, as in the source. -/
structure TurnMetrics where
  turn_id : Nat
  timestamp : String
  user_speech_start : Option ℚ := none
  user_speech_end : Option ℚ := none
  llm_processing_start : Option ℚ := none
  llm_first_token : Option ℚ := none
  llm_processing_end : Option ℚ := none
  tts_start : Option ℚ := none
  tts_first_byte : Option ℚ := none
  tts_end : Option ℚ := none
  audio_playback_start : Option ℚ := none
  audio_playback_end : Option ℚ := none
  user_text : String := ""
  assistant_text : String := ""
deriving Repr, DecidableEq, Inhabited

/-- One conditional entry of the metrics dictionary: the source executes
`metrics['k'] = v` under an `if` guard, which in insertion order amounts to
appending `[(k, v)]` when the guard holds and nothing otherwise. -/
def entryIf (b : Bool) (k : String) (v : ℚ) : List (String × ℚ) :=
  if b then [(k, v)] else []

/-- `TurnMetrics.calculate_metrics` from `agent-with-metrics.py`: builds the
derived-metrics dictionary.  Every guard is the Python truthiness test
`if self.a and self.b:` on the two optional timestamps, and every value is
`(later - earlier) * 1000`.  The dictionary is represented as an association
list in insertion order. -/
def TurnMetrics.calculate_metrics (t : TurnMetrics) : List (String × ℚ) :=
  entryIf (truthy t.user_speech_end && truthy t.llm_processing_start)
      "eou_delay" ((t.llm_processing_start.getD 0 - t.user_speech_end.getD 0) * 1000)
  ++ (entryIf (truthy t.llm_processing_start && truthy t.llm_first_token)
      "ttft" ((t.llm_first_token.getD 0 - t.llm_processing_start.getD 0) * 1000)
  ++ (entryIf (truthy t.tts_start && truthy t.tts_first_byte)
      "ttfb" ((t.tts_first_byte.getD 0 - t.tts_start.getD 0) * 1000)
  ++ (entryIf (truthy t.user_speech_end && truthy t.audio_playback_start)
      "total_latency" ((t.audio_playback_start.getD 0 - t.user_speech_end.getD 0) * 1000)
  ++ (entryIf (truthy t.llm_processing_start && truthy t.llm_processing_end)
      "llm_processing_time" ((t.llm_processing_end.getD 0 - t.llm_processing_start.getD 0) * 1000)
  ++ (entryIf (truthy t.tts_start && truthy t.tts_end)
      "tts_processing_time" ((t.tts_end.getD 0 - t.tts_start.getD 0) * 1000)
  ++ entryIf (truthy t.user_speech_start && truthy t.user_speech_end)
      "user_speech_duration" ((t.user_speech_end.getD 0 - t.user_speech_start.getD 0) * 1000))))))

/-- `dict.get(k)` on the association-list representation of a Python dict. -/
def dictGet (d : List (String × ℚ)) (k : String) : Option ℚ :=
  (d.find? (fun p => p.1 == k)).map Prod.snd

theorem find?_entryIf (p : String × ℚ → Bool) (b : Bool) (k : String) (v : ℚ) :
    (entryIf b k v).find? p = if b && p (k, v) then some (k, v) else none := by
  cases b <;> simp [entryIf]

/-- A turn whose `user_speech_end` is set to the value `0.0` and whose
`llm_processing_start` is set to `5.0`. -/
def zeroEouTurn : TurnMetrics :=
  { turn_id := 1, timestamp := "t", user_speech_end := some 0,
    llm_processing_start := some 5 }

/-- C1 counterexample: on a turn where both `user_speech_end` (set to `0.0`)
and `llm_processing_start` (set to `5.0`) are present, `calculate_metrics`
omits the key `eou_delay`, because the source's guard
`if self.user_speech_end and self.llm_processing_start:` uses Python
truthiness and treats the set value `0.0` as absent.  The claim requires the
key to be present with value `5000.0` here. -/
theorem C1_counterexample :
    zeroEouTurn.user_speech_end.isSome = true
    ∧ zeroEouTurn.llm_processing_start.isSome = true
    ∧ dictGet zeroEouTurn.calculate_metrics "eou_delay" = none := by
  refine ⟨rfl, rfl, ?_⟩
  simp [zeroEouTurn, TurnMetrics.calculate_metrics, dictGet, entryIf, truthy]

/-- C1 (amended): `calculate_metrics` contains the key `eou_delay` exactly
when `user_speech_end` and `llm_processing_start` are both set AND nonzero
(Python truthiness), and then its value is
`(llm_processing_start - user_speech_end) * 1000`; a timestamp that is unset,
or set to `0.0`, makes the key absent. -/
theorem C1_amended_eou_delay (t : TurnMetrics) :
    dictGet t.calculate_metrics "eou_delay" =
      match t.user_speech_end, t.llm_processing_start with
      | some u, some l => if u ≠ 0 ∧ l ≠ 0 then some ((l - u) * 1000) else none
      | _, _ => none := by
  rcases hu : t.user_speech_end with _ | u <;>
    rcases hl : t.llm_processing_start with _ | l <;>
      simp [TurnMetrics.calculate_metrics, dictGet, find?_entryIf, hu, hl, truthy]

/-- The fully populated turn of the numeric scenario: timestamps
`user_speech_end = 10.0`, `llm_processing_start = 10.2`,
`llm_first_token = 10.3`, `tts_start = 10.35`, `tts_first_byte = 10.4`,
`audio_playback_start = 10.45` (wall-clock seconds, exact rationals). -/
def scenarioTurn : TurnMetrics :=
  { turn_id := 1, timestamp := "t1",
    user_speech_end := some 10,
    llm_processing_start := some (102/10),
    llm_first_token := some (103/10),
    tts_start := some (1035/100),
    tts_first_byte := some (104/10),
    audio_playback_start := some (1045/100) }

/-- C9: on the scenario turn, the derived metrics include
`eou_delay = 200`, `ttft = 100`, `ttfb = 50` and `total_latency = 450`,
all in milliseconds (exact-rational arithmetic). -/
theorem C9_scenario_metrics :
    dictGet scenarioTurn.calculate_metrics "eou_delay" = some 200
    ∧ dictGet scenarioTurn.calculate_metrics "ttft" = some 100
    ∧ dictGet scenarioTurn.calculate_metrics "ttfb" = some 50
    ∧ dictGet scenarioTurn.calculate_metrics "total_latency" = some 450 := by
  refine ⟨?_, ?_, ?_, ?_⟩ <;>
    · simp [scenarioTurn, TurnMetrics.calculate_metrics, dictGet, entryIf, truthy]
      norm_num

/-- One entry of `MetricsCollector.events_log` (a dict with keys
`timestamp`, `event`, `data` in the source). -/
structure EventLogEntry where
  timestamp : ℚ
  event : String
  data : Option String
deriving Repr, DecidableEq

/-- The `MetricsCollector` class state from `agent-with-metrics.py`.  In the
source, `current_turn` is an alias of the last appended `TurnMetrics` object;
mutating it mutates the list element, so it is modelled as an index into
`turns`. -/
structure MetricsCollector where
  session_start_time : ℚ
  session_id : String
  turns : List TurnMetrics
  current_turn : Option Nat
  turn_counter : Nat
  events_log : List EventLogEntry
deriving Repr, DecidableEq

/-- The state built by `MetricsCollector.__init__`: empty turn list, no
current turn, counter `0`, empty event log. -/
def initCollector (now : ℚ) (sid : String) : MetricsCollector :=
  { session_start_time := now, session_id := sid, turns := [],
    current_turn := none, turn_counter := 0, events_log := [] }

/-- `MetricsCollector.log_event`: appends an entry to `events_log`. -/
def MetricsCollector.log_event (s : MetricsCollector) (now : ℚ) (event : String)
    (data : Option String) : MetricsCollector :=
  { s with events_log := s.events_log ++ [⟨now, event, data⟩] }

/-- `MetricsCollector.start_new_turn`: increments the session-wide counter,
appends a fresh turn carrying the new counter value as its identifier, makes
it the current turn and logs a `new_turn` event. -/
def MetricsCollector.start_new_turn (s : MetricsCollector) (now : ℚ) (nowIso : String) :
    MetricsCollector :=
  let c := s.turn_counter + 1
  let s1 : MetricsCollector :=
    { s with turn_counter := c,
             current_turn := some s.turns.length,
             turns := s.turns ++ [{ turn_id := c, timestamp := nowIso }] }
  s1.log_event now "new_turn" (some (toString c))

/-- In-place update of the element at index `i`, the functional counterpart
of mutating the aliased list element through `current_turn`. -/
def listModify (f : α → α) : List α → Nat → List α
  | [], _ => []
  | a :: t, 0 => f a :: t
  | a :: t, n + 1 => a :: listModify f t n

/-- Mutation of the current turn object, as performed by the lifecycle
callbacks through the `current_turn` alias. -/
def MetricsCollector.modifyCurrent (s : MetricsCollector)
    (f : TurnMetrics → TurnMetrics) : MetricsCollector :=
  match s.current_turn with
  | none => s
  | some i => { s with turns := listModify f s.turns i }

/-- The turn object currently referenced by `current_turn`, if any. -/
def currentTurn (s : MetricsCollector) : Option TurnMetrics :=
  s.current_turn.bind (fun i => s.turns[i]?)

/-- Well-formedness of a collector state: the current-turn alias, when
present, references an element of `turns`.  Every state reachable from
`initCollector` satisfies this. -/
def MetricsCollector.WF (s : MetricsCollector) : Prop :=
  match s.current_turn with
  | none => True
  | some i => i < s.turns.length

/-- Timestamps sampled during one `generate_response` call (the source calls
`time.time()` once per field between its simulated-latency sleeps). -/
structure GenTimes where
  llmStart : ℚ
  llmFirstToken : ℚ
  llmEnd : ℚ
  ttsStartT : ℚ
  ttsFirstByteT : ℚ
  ttsEndT : ℚ
  playbackStart : ℚ
deriving Repr, DecidableEq

/-- `Assistant.on_user_speech_start`: lazily starts a turn when none is
current, then unconditionally assigns `user_speech_start` on the current
turn, then logs the event. -/
def Assistant.on_user_speech_start (s : MetricsCollector) (now : ℚ)
    (nowIso : String) : MetricsCollector :=
  let s1 := if s.current_turn.isNone then s.start_new_turn now nowIso else s
  let s2 := s1.modifyCurrent (fun t => { t with user_speech_start := some now })
  s2.log_event now "user_speech_start" none

/-- `Assistant.on_user_speech_end`: guarded by `if self.metrics.current_turn:`
in the source — when no current turn exists it does nothing (it does NOT
lazily create one); otherwise it assigns `user_speech_end` and `user_text`
and logs the event. -/
def Assistant.on_user_speech_end (s : MetricsCollector) (now : ℚ)
    (transcript : String) : MetricsCollector :=
  if s.current_turn.isSome then
    ((s.modifyCurrent (fun t =>
        { t with user_speech_end := some now, user_text := transcript })).log_event
      now "user_speech_end" (some transcript))
  else s

/-- `Assistant.generate_response`: lazily starts a turn when none is current;
simulates `user_speech_end` only when that field is falsy (`None` or `0.0`);
then assigns the LLM, TTS and playback timestamps and the response text on
the current turn, logging each step.  The body of the source's `try` block
contains no failing operation in the embedded fragment, so only the success
path is modelled. -/
def Assistant.generate_response (s : MetricsCollector) (user_input : String)
    (now : ℚ) (nowIso : String) (g : GenTimes) : MetricsCollector × String :=
  let s := if s.current_turn.isNone then s.start_new_turn now nowIso else s
  let s := s.modifyCurrent (fun t =>
    if truthy t.user_speech_end then t
    else { t with user_speech_end := some now, user_text := user_input })
  let response := "I heard you say: \x27" ++ user_input ++ "\x27. How can I help you further?"
  let s := s.modifyCurrent (fun t => { t with llm_processing_start := some g.llmStart })
  let s := s.log_event g.llmStart "llm_processing_start" none
  let s := s.modifyCurrent (fun t => { t with llm_first_token := some g.llmFirstToken })
  let s := s.log_event g.llmFirstToken "llm_first_token" none
  let s := s.modifyCurrent (fun t =>
    { t with llm_processing_end := some g.llmEnd, assistant_text := response })
  let s := s.log_event g.llmEnd "llm_processing_end" (some response)
  let s := s.modifyCurrent (fun t => { t with tts_start := some g.ttsStartT })
  let s := s.log_event g.ttsStartT "tts_start" none
  let s := s.modifyCurrent (fun t => { t with tts_first_byte := some g.ttsFirstByteT })
  let s := s.log_event g.ttsFirstByteT "tts_first_byte" none
  let s := s.modifyCurrent (fun t => { t with tts_end := some g.ttsEndT })
  let s := s.log_event g.ttsEndT "tts_end" none
  let s := s.modifyCurrent (fun t => { t with audio_playback_start := some g.playbackStart })
  let s := s.log_event g.playbackStart "audio_playback_start" none
  (s, response)

theorem length_listModify (f : α → α) (l : List α) (i : Nat) :
    (listModify f l i).length = l.length := by
  induction l generalizing i with
  | nil => rfl
  | cons a t ih => cases i <;> simp [listModify, ih]

theorem getElem?_listModify_self (f : α → α) (l : List α) (i : Nat) :
    (listModify f l i)[i]? = (l[i]?).map f := by
  induction l generalizing i with
  | nil => simp [listModify]
  | cons a t ih => cases i <;> simp [listModify, ih]

theorem turns_log_event (s : MetricsCollector) (now : ℚ) (e : String)
    (d : Option String) : (s.log_event now e d).turns = s.turns := rfl

theorem current_log_event (s : MetricsCollector) (now : ℚ) (e : String)
    (d : Option String) : (s.log_event now e d).current_turn = s.current_turn := rfl

theorem currentTurn_log_event (s : MetricsCollector) (now : ℚ) (e : String)
    (d : Option String) : currentTurn (s.log_event now e d) = currentTurn s := rfl

theorem turns_length_modifyCurrent (s : MetricsCollector)
    (f : TurnMetrics → TurnMetrics) :
    (s.modifyCurrent f).turns.length = s.turns.length := by
  rcases h : s.current_turn with _ | i <;>
    simp [MetricsCollector.modifyCurrent, h, length_listModify]

theorem currentTurn_modifyCurrent (s : MetricsCollector)
    (f : TurnMetrics → TurnMetrics) :
    currentTurn (s.modifyCurrent f) = (currentTurn s).map f := by
  rcases h : s.current_turn with _ | i <;>
    simp [MetricsCollector.modifyCurrent, currentTurn, h, getElem?_listModify_self]

theorem turns_length_start_new_turn (s : MetricsCollector) (now : ℚ)
    (iso : String) :
    (s.start_new_turn now iso).turns.length = s.turns.length + 1 := by
  simp [MetricsCollector.start_new_turn, MetricsCollector.log_event]

theorem currentTurn_start_new_turn (s : MetricsCollector) (now : ℚ)
    (iso : String) :
    currentTurn (s.start_new_turn now iso)
      = some { turn_id := s.turn_counter + 1, timestamp := iso } := by
  simp [MetricsCollector.start_new_turn, MetricsCollector.log_event, currentTurn]

/-- Iterated `start_new_turn`, one call per element of the input list of
(wall-clock time, ISO-string) pairs. -/
def startTurnsFold (s : MetricsCollector) (l : List (ℚ × String)) :
    MetricsCollector :=
  l.foldl (fun s p => s.start_new_turn p.1 p.2) s

theorem turnIds_startTurnsFold (l : List (ℚ × String)) (s : MetricsCollector)
    (h : s.turns.map TurnMetrics.turn_id = List.range' 1 s.turn_counter) :
    (startTurnsFold s l).turns.map TurnMetrics.turn_id
        = List.range' 1 (s.turn_counter + l.length)
    ∧ (startTurnsFold s l).turn_counter = s.turn_counter + l.length := by
  induction l generalizing s with
  | nil => simpa [startTurnsFold] using h
  | cons p t ih =>
    have hstep : (s.start_new_turn p.1 p.2).turns.map TurnMetrics.turn_id
        = List.range' 1 (s.turn_counter + 1) := by
      simp [MetricsCollector.start_new_turn, MetricsCollector.log_event, h,
        List.range'_1_concat]
      omega
    have hc : (s.start_new_turn p.1 p.2).turn_counter = s.turn_counter + 1 := rfl
    rcases ih (s.start_new_turn p.1 p.2) (by rw [hstep, hc]) with ⟨h1, h2⟩
    have harith : s.turn_counter + 1 + t.length = s.turn_counter + (t.length + 1) := by
      omega
    constructor
    · have : startTurnsFold s (p :: t) = startTurnsFold (s.start_new_turn p.1 p.2) t := rfl
      rw [this, h1, hc, harith]
      simp
    · have : startTurnsFold s (p :: t) = startTurnsFold (s.start_new_turn p.1 p.2) t := rfl
      rw [this, h2, hc]
      simp only [List.length_cons]
      omega

/-- C6: within one session, starting from the freshly initialised collector,
the identifiers of the turns created by n successive `start_new_turn` calls
are exactly the sequence 1, 2, ..., n — strictly increasing from 1, no gaps,
no repeats, each assigned once at creation by the session-wide counter. -/
theorem C6_turn_ids (t0 : ℚ) (sid : String) (l : List (ℚ × String)) :
    (startTurnsFold (initCollector t0 sid) l).turns.map TurnMetrics.turn_id
      = List.range' 1 l.length := by
  have h := turnIds_startTurnsFold l (initCollector t0 sid) (by simp [initCollector])
  simpa [initCollector] using h.1

/-- C5 counterexample: `on_user_speech_end` invoked when no current turn
exists creates NO turn (the source's guard `if self.metrics.current_turn:`
makes it a silent no-op), whereas the claim requires every field-set
operation — explicitly including the one recording `user_speech_end` — to
create exactly one new turn in that situation. -/
theorem C5_counterexample :
    (Assistant.on_user_speech_end (initCollector 0 "sid") 5 "hello").turns.length = 0
    ∧ (initCollector 0 "sid").current_turn = none := by
  constructor <;> rfl

/-- C5 (amended): `on_user_speech_start` and `generate_response` invoked with
no current turn create exactly one new turn and set their field on it, and
invoked with a current turn present they create none; `on_user_speech_end`
never creates a turn — with no current turn it is a silent no-op. -/
theorem C5_amended (s : MetricsCollector) (now : ℚ) (iso tr inp : String)
    (g : GenTimes) :
    ((Assistant.on_user_speech_start s now iso).turns.length
        = s.turns.length + (if s.current_turn.isNone then 1 else 0))
    ∧ (s.current_turn = none →
        (currentTurn (Assistant.on_user_speech_start s now iso)).map
            TurnMetrics.user_speech_start = some (some now))
    ∧ (s.current_turn = none → Assistant.on_user_speech_end s now tr = s)
    ∧ ((Assistant.on_user_speech_end s now tr).turns.length = s.turns.length)
    ∧ ((Assistant.generate_response s inp now iso g).1.turns.length
        = s.turns.length + (if s.current_turn.isNone then 1 else 0)) := by
  refine ⟨?_, ?_, ?_, ?_, ?_⟩
  · rcases h : s.current_turn with _ | i <;>
      simp [Assistant.on_user_speech_start, h, turns_log_event,
        turns_length_modifyCurrent, turns_length_start_new_turn]
  · intro h
    simp [Assistant.on_user_speech_start, h, currentTurn_log_event,
      currentTurn_modifyCurrent, currentTurn_start_new_turn]
  · intro h
    simp [Assistant.on_user_speech_end, h]
  · rcases h : s.current_turn with _ | i <;>
      simp [Assistant.on_user_speech_end, h, turns_log_event,
        turns_length_modifyCurrent]
  · rcases h : s.current_turn with _ | i <;>
      simp [Assistant.generate_response, h, turns_log_event,
        turns_length_modifyCurrent, turns_length_start_new_turn]

/-- C5 witness: at the freshly initialised collector (no current turn),
`on_user_speech_start` creates exactly one turn and sets its field, and
`on_user_speech_end` is a no-op. -/
theorem C5_amended_witness :
    ((Assistant.on_user_speech_start (initCollector 0 "sid") 1 "i").turns.length
        = (initCollector 0 "sid").turns.length + 1)
    ∧ (currentTurn (Assistant.on_user_speech_start (initCollector 0 "sid") 1 "i")).map
        TurnMetrics.user_speech_start = some (some 1)
    ∧ Assistant.on_user_speech_end (initCollector 0 "sid") 1 "t"
        = initCollector 0 "sid" := by
  have h := C5_amended (initCollector 0 "sid") 1 "i" "t" "x" ⟨2, 3, 4, 5, 6, 7, 8⟩
  exact ⟨by simpa using h.1, h.2.1 rfl, h.2.2.1 rfl⟩

/-- C7 counterexample: two successive `on_user_speech_start` calls mutate the
same (single, still-open) turn, and the second call overwrites the
already-set `user_speech_start` timestamp from `1` to `2` — the source
assigns `turn.user_speech_start = time.time()` unconditionally and
`current_turn` is never cleared. -/
theorem C7_counterexample :
    (Assistant.on_user_speech_start (initCollector 0 "sid") 1 "a").turns.length = 1
    ∧ (currentTurn (Assistant.on_user_speech_start (initCollector 0 "sid") 1 "a")).map
        TurnMetrics.user_speech_start = some (some 1)
    ∧ (Assistant.on_user_speech_start
        (Assistant.on_user_speech_start (initCollector 0 "sid") 1 "a") 2 "b").turns.length = 1
    ∧ (currentTurn (Assistant.on_user_speech_start
          (Assistant.on_user_speech_start (initCollector 0 "sid") 1 "a") 2 "b")).map
        TurnMetrics.user_speech_start = some (some 2) := by
  refine ⟨rfl, ?_, rfl, ?_⟩ <;> rfl

/-- C7 (amended): timestamp assignments in the lifecycle callbacks are
unconditional, so a repeated callback overwrites a previously set field of
the still-open turn; the only field-set guarded against overwrite is the
`user_speech_end` simulation in `generate_response`: when the current turn's
`user_speech_end` is already set (and nonzero), `generate_response` leaves
it unchanged. -/
theorem C7_amended (s : MetricsCollector) (inp : String) (now : ℚ)
    (iso : String) (g : GenTimes) (t : TurnMetrics)
    (hc : currentTurn s = some t) (ht : truthy t.user_speech_end = true) :
    (currentTurn (Assistant.generate_response s inp now iso g).1).map
        TurnMetrics.user_speech_end = some t.user_speech_end := by
  rcases h : s.current_turn with _ | i
  · simp [currentTurn, h] at hc
  · simp [Assistant.generate_response, h, currentTurn_log_event,
      currentTurn_modifyCurrent, hc, ht]

/-- A concrete reachable-shaped collector state whose single turn has
`user_speech_end` already set to `3`. -/
def c7State : MetricsCollector :=
  { session_start_time := 0, session_id := "sid",
    turns := [{ turn_id := 1, timestamp := "i", user_speech_end := some 3 }],
    current_turn := some 0, turn_counter := 1, events_log := [] }

/-- C7 witness: on `c7State`, `generate_response` preserves the already-set
`user_speech_end = 3`. -/
theorem C7_amended_witness :
    (currentTurn (Assistant.generate_response c7State "x" 9 "j"
        ⟨2, 3, 4, 5, 6, 7, 8⟩).1).map TurnMetrics.user_speech_end
      = some (some 3) :=
  C7_amended c7State "x" 9 "j" ⟨2, 3, 4, 5, 6, 7, 8⟩
    { turn_id := 1, timestamp := "i", user_speech_end := some 3 }
    (by rfl) (by decide)

/-- One detailed-metrics row of the export: turn identifier, creation
timestamp, the two texts, and the seven metric cells, where the source's
`metrics.get('k', 'N/A')` marker is modelled as `none`. -/
structure Row where
  turn_id : Nat
  timestamp : String
  user_text : String
  assistant_text : String
  eou_delay : Option ℚ
  ttft : Option ℚ
  ttfb : Option ℚ
  total_latency : Option ℚ
  llm_processing_time : Option ℚ
  tts_processing_time : Option ℚ
  user_speech_duration : Option ℚ
deriving Repr, DecidableEq

/-- The row built for one turn in the export loop of `export_to_excel`. -/
def rowOfTurn (t : TurnMetrics) : Row :=
  let m := t.calculate_metrics
  { turn_id := t.turn_id, timestamp := t.timestamp,
    user_text := t.user_text, assistant_text := t.assistant_text,
    eou_delay := dictGet m "eou_delay",
    ttft := dictGet m "ttft",
    ttfb := dictGet m "ttfb",
    total_latency := dictGet m "total_latency",
    llm_processing_time := dictGet m "llm_processing_time",
    tts_processing_time := dictGet m "tts_processing_time",
    user_speech_duration := dictGet m "user_speech_duration" }

/-- One row of the Summary Statistics sheet. -/
structure SummaryRow where
  metric : String
  average : ℚ
  min : ℚ
  max : ℚ
  count : Nat
deriving Repr, DecidableEq

/-- The per-column summary computation of `export_to_excel`: keep the cells
that are not the `N/A` marker; if any remain, report their average, minimum,
maximum and count; otherwise produce no row (the source's
`if valid_values:` guard). -/
def summarize (name : String) (vals : List (Option ℚ)) : Option SummaryRow :=
  match vals.filterMap id with
  | [] => none
  | v :: vs =>
    some { metric := name,
           average := (v :: vs).sum / ((v :: vs).length : ℚ),
           min := vs.foldl Min.min v,
           max := vs.foldl Max.max v,
           count := (v :: vs).length }

/-- The `numeric_columns` list of `export_to_excel`: column header and the
corresponding cell of a detailed row. -/
def numeric_columns : List (String × (Row → Option ℚ)) :=
  [("EOU Delay (ms)", Row.eou_delay),
   ("TTFT (ms)", Row.ttft),
   ("TTFB (ms)", Row.ttfb),
   ("Total Latency (ms)", Row.total_latency),
   ("LLM Processing Time (ms)", Row.llm_processing_time),
   ("TTS Processing Time (ms)", Row.tts_processing_time),
   ("User Speech Duration (ms)", Row.user_speech_duration)]

/-- The Summary Statistics sheet: one summary row per metric column that has
at least one valid value. -/
def exportSummary (rows : List Row) : List SummaryRow :=
  numeric_columns.filterMap (fun c => summarize c.1 (rows.map c.2))

/-- The Session Info sheet. -/
structure SessionInfo where
  session_id : String
  session_start : ℚ
  total_turns : Nat
  duration_minutes : ℚ
deriving Repr, DecidableEq

/-- The value produced by `export_to_excel`: the full spreadsheet on the
primary path, the delimited fallback file (detailed rows only) on the
fallback path, or the empty result `""` when both writes fail. -/
inductive ExportResult where
  | excel (filename : String) (detailed : List Row) (summary : List SummaryRow)
      (events : List EventLogEntry) (info : SessionInfo)
  | csv (filename : String) (detailed : List Row)
  | failure
deriving Repr, DecidableEq

/-- The detailed-metrics section of an export result, when one was written. -/
def ExportResult.detailedRows : ExportResult → Option (List Row)
  | .excel _ d _ _ _ => some d
  | .csv _ d => some d
  | .failure => none

/-- The session-info section of an export result, when one was written (the
CSV fallback writes only the detailed rows). -/
def ExportResult.sessionInfo : ExportResult → Option SessionInfo
  | .excel _ _ _ _ i => some i
  | _ => none

/-- Character-list engine for Python's `str.replace`, which replaces every
occurrence of `pat`.  Structural recursion on a fuel argument keeps it
kernel-reducible; fuel `s.length` suffices since each step consumes at least
one character of `s`. -/
def replaceChars : Nat → List Char → List Char → List Char → List Char
  | 0, s, _, _ => s
  | _ + 1, [], _, _ => []
  | n + 1, c :: rest, pat, rep =>
    if pat ≠ [] ∧ (c :: rest).take pat.length = pat then
      rep ++ replaceChars n ((c :: rest).drop pat.length) pat rep
    else
      c :: replaceChars n rest pat rep

/-- Python's `str.replace` on the character-list representation of strings,
as used by `filename.replace('.xlsx', '.csv')` in the fallback path. -/
def pyReplace (s pat rep : String) : String :=
  ⟨replaceChars s.data.length s.data pat.data rep.data⟩

/-- `MetricsCollector.export_to_excel`.  `excelOk` and `csvOk` model whether
the two filesystem writes succeed.  The only other failing operation in the
primary `try` block is the summary loop's `df[col]`, which raises `KeyError`
exactly when `turns` is empty: `pd.DataFrame` built from zero row dicts has
no columns.  Both `except` clauses catch every exception as in the source,
so the embedding is a total function — no exception escapes.  The source
never assigns to any collector attribute here, so the state component is
returned unchanged. -/
def MetricsCollector.export_to_excel (s : MetricsCollector) (now : ℚ)
    (filename? : Option String) (excelOk csvOk : Bool) :
    ExportResult × MetricsCollector :=
  let filename := if filename?.getD "" = "" then
      "voice_agent_metrics_" ++ s.session_id ++ ".xlsx"
    else filename?.getD ""
  let export_data := s.turns.map rowOfTurn
  if !export_data.isEmpty && excelOk then
    (ExportResult.excel filename export_data (exportSummary export_data)
      s.events_log
      { session_id := s.session_id, session_start := s.session_start_time,
        total_turns := s.turns.length,
        duration_minutes := (now - s.session_start_time) / 60 }, s)
  else
    if csvOk then
      (ExportResult.csv (pyReplace filename ".xlsx" ".csv") export_data, s)
    else
      (ExportResult.failure, s)

/-- C3 counterexample: exporting a freshly initialised collector (zero
turns) with both writes able to succeed does not produce a report with a
session-info section: the summary loop fails on the column-less empty
DataFrame, the export falls back to the delimited file, and the result is a
CSV with an empty detailed section and no session-info section at all. -/
theorem C3_counterexample :
    ((initCollector 0 "sid").export_to_excel 5 none true true).1
        = ExportResult.csv "voice_agent_metrics_sid.csv" []
    ∧ (((initCollector 0 "sid").export_to_excel 5 none true true).1).sessionInfo
        = none := by
  constructor <;> rfl

/-- C3 (amended): `export_to_excel` with zero recorded turns does not raise,
but its primary spreadsheet path fails internally (the summary loop indexes
a column absent from the DataFrame built from zero rows), so it returns the
delimited fallback report, whose detailed-metrics section is empty and which
has no session-info section. -/
theorem C3_amended (s : MetricsCollector) (now : ℚ) (fn? : Option String)
    (excelOk : Bool) (h : s.turns = []) :
    ((s.export_to_excel now fn? excelOk true).1).detailedRows = some []
    ∧ ((s.export_to_excel now fn? excelOk true).1).sessionInfo = none
    ∧ (∃ name, (s.export_to_excel now fn? excelOk true).1
        = ExportResult.csv name []) := by
  refine ⟨?_, ?_, ⟨pyReplace (if fn?.getD "" = "" then
      "voice_agent_metrics_" ++ s.session_id ++ ".xlsx"
    else fn?.getD "") ".xlsx" ".csv", ?_⟩⟩ <;>
    simp [MetricsCollector.export_to_excel, h, ExportResult.sessionInfo,
      ExportResult.detailedRows]

/-- C3 witness: the amended statement at a concrete empty collector. -/
theorem C3_amended_witness :
    (((initCollector 0 "sid").export_to_excel 5 none true true).1).detailedRows
        = some []
    ∧ (((initCollector 0 "sid").export_to_excel 5 none true true).1).sessionInfo
        = none
    ∧ (∃ name, ((initCollector 0 "sid").export_to_excel 5 none true true).1
        = ExportResult.csv name []) :=
  C3_amended (initCollector 0 "sid") 5 none true rfl

/-- C4: when the primary spreadsheet write path fails, the export writes the
delimited fallback containing exactly the detailed per-turn rows and returns
it; when the fallback write also fails, it returns the empty/failure result.
The embedded function is total — every exception in the source is caught —
so no exception escapes in either case. -/
theorem C4_fallback (s : MetricsCollector) (now : ℚ) (fn? : Option String)
    (csvOk : Bool) :
    (csvOk = true →
        ∃ name, (s.export_to_excel now fn? false csvOk).1
          = ExportResult.csv name (s.turns.map rowOfTurn))
    ∧ (csvOk = false →
        (s.export_to_excel now fn? false csvOk).1 = ExportResult.failure) := by
  constructor
  · intro h
    subst h
    refine ⟨pyReplace (if fn?.getD "" = "" then
        "voice_agent_metrics_" ++ s.session_id ++ ".xlsx"
      else fn?.getD "") ".xlsx" ".csv", ?_⟩
    simp [MetricsCollector.export_to_excel]
  · intro h
    subst h
    simp [MetricsCollector.export_to_excel]

/-- C4 witness: both fallback outcomes at a concrete collector. -/
theorem C4_fallback_witness :
    (∃ name, ((initCollector 0 "sid").export_to_excel 5 none false true).1
        = ExportResult.csv name ((initCollector 0 "sid").turns.map rowOfTurn))
    ∧ ((initCollector 0 "sid").export_to_excel 5 none false false).1
        = ExportResult.failure :=
  ⟨(C4_fallback (initCollector 0 "sid") 5 none true).1 rfl,
   (C4_fallback (initCollector 0 "sid") 5 none false).2 rfl⟩

/-- C10: `export_to_excel` never mutates the collector: on the success path,
the fallback path and the total-failure path alike, the returned state —
turns, current turn, counter, event log, session id and start time — is the
input state, so repeated exports serialize the same turn data. -/
theorem C10_export_preserves_state (s : MetricsCollector) (now : ℚ)
    (fn? : Option String) (excelOk csvOk : Bool) :
    (s.export_to_excel now fn? excelOk csvOk).2 = s := by
  rcases excelOk <;> rcases csvOk <;>
    rcases hemp : (s.turns.map rowOfTurn).isEmpty <;>
      simp [MetricsCollector.export_to_excel, hemp]

/-- A turn with no timestamps set: every metric cell of its row is the
`N/A` marker. -/
def blankTurn : TurnMetrics := { turn_id := 1, timestamp := "t" }

/-- C8 counterexample: for a collector whose single turn has no timestamps,
every metric column holds 0 valid values and 1 marker, and the summary
section is empty — there is no row reporting Count = 0, contrary to the
claim's "Count equal to N" for N = 0 (the source's `if valid_values:` guard
skips the column entirely). -/
theorem C8_counterexample :
    exportSummary [rowOfTurn blankTurn] = []
    ∧ (rowOfTurn blankTurn).eou_delay = none := by
  constructor <;> rfl

theorem foldl_min_mem (vs : List ℚ) (v : ℚ) : vs.foldl Min.min v ∈ v :: vs := by
  induction vs generalizing v with
  | nil => simp
  | cons a t ih =>
    have h := ih (Min.min v a)
    simp only [List.foldl_cons]
    rcases List.mem_cons.mp h with h | h
    · rcases min_choice v a with h2 | h2
      · exact List.mem_cons.mpr (Or.inl (h.trans h2))
      · exact List.mem_cons.mpr (Or.inr (List.mem_cons.mpr (Or.inl (h.trans h2))))
    · exact List.mem_cons.mpr (Or.inr (List.mem_cons.mpr (Or.inr h)))

theorem foldl_min_le (vs : List ℚ) (v : ℚ) :
    vs.foldl Min.min v ≤ v ∧ ∀ x ∈ vs, vs.foldl Min.min v ≤ x := by
  induction vs generalizing v with
  | nil => simp
  | cons a t ih =>
    rcases ih (Min.min v a) with ⟨h1, h2⟩
    simp only [List.foldl_cons]
    refine ⟨le_trans h1 (min_le_left _ _), ?_⟩
    intro x hx
    rcases List.mem_cons.mp hx with rfl | hx
    · exact le_trans h1 (min_le_right _ _)
    · exact h2 x hx

theorem foldl_max_mem (vs : List ℚ) (v : ℚ) : vs.foldl Max.max v ∈ v :: vs := by
  induction vs generalizing v with
  | nil => simp
  | cons a t ih =>
    have h := ih (Max.max v a)
    simp only [List.foldl_cons]
    rcases List.mem_cons.mp h with h | h
    · rcases max_choice v a with h2 | h2
      · exact List.mem_cons.mpr (Or.inl (h.trans h2))
      · exact List.mem_cons.mpr (Or.inr (List.mem_cons.mpr (Or.inl (h.trans h2))))
    · exact List.mem_cons.mpr (Or.inr (List.mem_cons.mpr (Or.inr h)))

theorem foldl_max_ge (vs : List ℚ) (v : ℚ) :
    v ≤ vs.foldl Max.max v ∧ ∀ x ∈ vs, x ≤ vs.foldl Max.max v := by
  induction vs generalizing v with
  | nil => simp
  | cons a t ih =>
    rcases ih (Max.max v a) with ⟨h1, h2⟩
    simp only [List.foldl_cons]
    refine ⟨le_trans (le_max_left _ _) h1, ?_⟩
    intro x hx
    rcases List.mem_cons.mp hx with rfl | hx
    · exact le_trans (le_max_right _ _) h1
    · exact h2 x hx

/-- C8 (amended): for a metric column whose cells contain at least one valid
numeric value among any number of `N/A` markers, the summary computation
produces a row whose Count is the number N of valid values and whose
Average, Min and Max are computed only over those N values, skipping the
markers; a column with zero valid values yields no summary row. -/
theorem C8_amended (name : String) (vals : List (Option ℚ))
    (h : vals.filterMap id ≠ []) :
    ∃ r, summarize name vals = some r
      ∧ r.metric = name
      ∧ r.count = (vals.filterMap id).length
      ∧ r.average = (vals.filterMap id).sum / ((vals.filterMap id).length : ℚ)
      ∧ r.min ∈ vals.filterMap id
      ∧ (∀ x ∈ vals.filterMap id, r.min ≤ x)
      ∧ r.max ∈ vals.filterMap id
      ∧ (∀ x ∈ vals.filterMap id, x ≤ r.max) := by
  rcases hv : vals.filterMap id with _ | ⟨v, vs⟩
  · exact absurd hv h
  refine ⟨{ metric := name,
            average := (v :: vs).sum / ((v :: vs).length : ℚ),
            min := vs.foldl Min.min v, max := vs.foldl Max.max v,
            count := (v :: vs).length }, ?_, rfl, rfl, rfl, ?_, ?_, ?_, ?_⟩
  · simp [summarize, hv]
  · exact foldl_min_mem vs v
  · intro x hx
    rcases List.mem_cons.mp hx with rfl | hx
    · exact (foldl_min_le vs x).1
    · exact (foldl_min_le vs v).2 x hx
  · exact foldl_max_mem vs v
  · intro x hx
    rcases List.mem_cons.mp hx with rfl | hx
    · exact (foldl_max_ge vs x).1
    · exact (foldl_max_ge vs v).2 x hx

/-- C8 witness: a concrete column with two valid values and one marker. -/
theorem C8_amended_witness :
    ∃ r, summarize "EOU Delay (ms)" [some 1, none, some 3] = some r
      ∧ r.metric = "EOU Delay (ms)"
      ∧ r.count = ([some 1, none, some 3].filterMap id).length
      ∧ r.average = ([some 1, none, some 3].filterMap id).sum
          / (([some (1 : ℚ), none, some 3].filterMap id).length : ℚ)
      ∧ r.min ∈ [some (1 : ℚ), none, some 3].filterMap id
      ∧ (∀ x ∈ [some (1 : ℚ), none, some 3].filterMap id, r.min ≤ x)
      ∧ r.max ∈ [some (1 : ℚ), none, some 3].filterMap id
      ∧ (∀ x ∈ [some (1 : ℚ), none, some 3].filterMap id, x ≤ r.max) :=
  C8_amended "EOU Delay (ms)" [some 1, none, some 3] (by decide)

/-- One record put into the cross-process metrics queue by
`_on_llm_finished` in `agent.py`: timestamp string, user utterance, agent
response, and the two rounded latencies (`"N/A"` markers as `none`). -/
structure MetricsRecord where
  timestampStr : String
  userUtterance : String
  agentResponse : String
  ttftMs : Option ℤ
  ttfbMs : Option ℤ
deriving Repr, DecidableEq

/-- Control locations of the `run_metrics_writer` coroutine of `agent.py`.
`tryGet` is the top of the `while True:` loop, about to call
`metrics_queue.get(block=False)`; `sleeping` is the coroutine suspended at
`await asyncio.sleep(0.1)`, which sits inside the `except Exception:`
(empty-queue) handler; `flushed` is completion of the save block that
follows the loop's `break`; `cancelledExit` is termination by a
`CancelledError` that propagated out of the coroutine without running the
save block. -/
inductive WriterPC where
  | tryGet
  | sleeping
  | flushed
  | cancelledExit
deriving Repr, DecidableEq

/-- State of the writer task and its environment: control location, the
`records` accumulator, the remaining queue contents, and the records present
in the output file. -/
structure WriterState where
  pc : WriterPC
  records : List MetricsRecord
  queue : List MetricsRecord
  fileRecords : List MetricsRecord
deriving Repr, DecidableEq

/-- One execution step of `run_metrics_writer` under asyncio semantics.
Cancellation is delivered only at a suspension point, and the coroutine's
only suspension point is the `await asyncio.sleep(0.1)` inside the
`except Exception:` handler.  A `CancelledError` raised there is not caught
by the sibling `except asyncio.CancelledError:` clause of the same `try`
statement, so it propagates out of the coroutine: the `break` into the save
block is unreachable (no transition ever enters `flushed`), and the save
block — which would append `records` to the file — never runs on
cancellation. -/
def writerStep (cancelRequested : Bool) : WriterState → WriterState
  | ⟨.tryGet, recs, r :: q, f⟩ => ⟨.tryGet, recs ++ [r], q, f⟩
  | ⟨.tryGet, recs, [], f⟩ => ⟨.sleeping, recs, [], f⟩
  | ⟨.sleeping, recs, q, f⟩ =>
    if cancelRequested then ⟨.cancelledExit, recs, q, f⟩
    else ⟨.tryGet, recs, q, f⟩
  | ⟨.flushed, recs, q, f⟩ => ⟨.flushed, recs, q, f⟩
  | ⟨.cancelledExit, recs, q, f⟩ => ⟨.cancelledExit, recs, q, f⟩

/-- Iterated `writerStep`. -/
def writerRun (cancelRequested : Bool) : Nat → WriterState → WriterState
  | 0, s => s
  | n + 1, s => writerRun cancelRequested n (writerStep cancelRequested s)

theorem writerRun_cancel_general (q : List MetricsRecord)
    (recs f : List MetricsRecord) :
    writerRun true (q.length + 2) ⟨.tryGet, recs, q, f⟩
      = ⟨.cancelledExit, recs ++ q, [], f⟩ := by
  induction q generalizing recs with
  | nil => simp [writerRun, writerStep]
  | cons r q' ih =>
    have hstep : writerRun true (q'.length + 3) ⟨.tryGet, recs, r :: q', f⟩
        = writerRun true (q'.length + 2) ⟨.tryGet, recs ++ [r], q', f⟩ := rfl
    have hlen : (r :: q').length + 2 = q'.length + 3 := rfl
    rw [hlen, hstep, ih (recs ++ [r])]
    simp

/-- C2: after the queue has received N records and the draining task is then
cancelled, the coroutine first drains all N records into its accumulator
(the non-blocking `get` has no suspension point, so cancellation cannot be
delivered during draining), then reaches the empty-queue sleep, where the
delivered `CancelledError` propagates out of the coroutine — the save block
never executes and the output file is left unchanged: 0 of the N records are
exported, not N as the claim (and the code's own comments and log messages)
require. -/
theorem C2_cancellation_drops_all_records (q f : List MetricsRecord) :
    writerRun true (q.length + 2) ⟨.tryGet, [], q, f⟩
      = ⟨.cancelledExit, q, [], f⟩ := by
  have h := writerRun_cancel_general q [] f
  simpa using h

end VoiceAgent
